import Mathlib

/-!
Shallow embedding of the `serialimage` crate (files `src/serialimage.rs`,
`src/optimalexposure.rs`, `src/dynamicserialimage.rs`) and proofs about it.

Modelling conventions:
* `u8`/`u16`/`usize` values are `Nat`; wrap-around of machine arithmetic is
  written explicitly (`% 2 ^ 16`, `wrap_sub_64`), matching the release-profile
  (twos-complement wrapping) semantics of Rust integer arithmetic.
* `f32`/`f64` values are `Rat`.  Float literals are embedded as the exact
  rational value of the corresponding IEEE-754 `f32` constant.  Intermediate
  float rounding of products/quotients is not modelled; every concrete input
  used in a theorem below keeps all compared quantities far from any decision
  boundary, so the rational result and the float result coincide there.
* `Duration` is a `Nat` counting nanoseconds; `as_micros` is truncating
  division by 1000, `Duration::from_secs_f64` rounds seconds to nanoseconds.
* Fallible Rust functions (returning `Result<_, &str>`) become
  `Except String _`; a Rust panic (`panic!`, `Option::unwrap` on `None`)
  becomes the `PanicOr.panics` outcome where the panic is observable
  behaviour of the modelled function.
-/

/-- Outcome of a Rust computation that can panic: either a normal value or a
panic with its message (a panic aborts/unwinds, it is not a recoverable
error value). -/
inductive PanicOr (α : Type) where
  | panics (msg : String)
  | ok (value : α)
  deriving Repr, DecidableEq

/-- Channel store of `SerialImageBuffer` (struct `SerialImageInternal<T>` in
`src/serialimage.rs`): five optional channel vectors plus the derived
element-per-pixel count. -/
structure SerialImageInternal (T : Type) where
  luma : Option (List T)
  red : Option (List T)
  green : Option (List T)
  blue : Option (List T)
  alpha : Option (List T)
  pixel_elems : Nat
  deriving Repr, DecidableEq

/-- The channel-planar image container (`SerialImageBuffer<T>` in
`src/serialimage.rs`).  The metadata record is opaque to every operation the
claims mention (it is only carried along / cloned), so it is modelled as an
opaque token `Option Unit`. -/
structure SerialImageBuffer (T : Type) where
  meta : Option Unit
  data : SerialImageInternal T
  width : Nat
  height : Nat
  deriving Repr, DecidableEq

namespace SerialImageBuffer

/-- De-interleaving helper `SerialImageBuffer::from_vec_unsafe` (the `_unsafe`
suffix of the source name is dropped).  Called only with `elems` in `1..=4`
and `data.length = size * elems`; the source indexes `data[i*k+j]` directly
(in range under that precondition), modelled with `List.getD`.  The final
source branch is `panic!("Invalid number of elements")`, unreachable from
all call sites, modelled as the all-`none` tuple. -/
def from_vec_deinterleave {T : Type} [Inhabited T] (size : Nat) (data : List T)
    (elems : Nat) :
    Option (List T) × Option (List T) × Option (List T) × Option (List T) ×
      Option (List T) :=
  if elems = 1 then
    (some data, none, none, none, none)
  else if elems = 2 then
    (some ((List.range size).map fun i => data.getD (i * 2) default),
     none, none, none,
     some ((List.range size).map fun i => data.getD (i * 2 + 1) default))
  else if elems = 3 then
    (none,
     some ((List.range size).map fun i => data.getD (i * 3) default),
     some ((List.range size).map fun i => data.getD (i * 3 + 1) default),
     some ((List.range size).map fun i => data.getD (i * 3 + 2) default),
     none)
  else if elems = 4 then
    (none,
     some ((List.range size).map fun i => data.getD (i * 4) default),
     some ((List.range size).map fun i => data.getD (i * 4 + 1) default),
     some ((List.range size).map fun i => data.getD (i * 4 + 2) default),
     some ((List.range size).map fun i => data.getD (i * 4 + 3) default))
  else
    (none, none, none, none, none)

/-- `SerialImageBuffer::from_vec` (src/serialimage.rs lines 79-107): infer the
channel count from the data length, validate, and de-interleave. -/
def from_vec {T : Type} [Inhabited T] (width height : Nat) (data : List T) :
    Except String (SerialImageBuffer T) :=
  if width * height = 0 then
    .error "Width and height must be greater than zero"
  else
    let pixel_elems := data.length / (width * height)
    if data.length ≠ width * height * pixel_elems then
      .error "Data length must be equal to width times height times pixel elements"
    else if pixel_elems > 4 ∨ pixel_elems = 0 then
      .error "Invalid number of pixel elements"
    else
      let t := from_vec_deinterleave (width * height) data pixel_elems
      .ok { meta := none,
            data := { luma := t.1, red := t.2.1, green := t.2.2.1,
                      blue := t.2.2.2.1, alpha := t.2.2.2.2,
                      pixel_elems := pixel_elems },
            width := width, height := height }

/-- Message of a Rust `Option::unwrap` panic. -/
def unwrapMsg : String := "called Option::unwrap on a None value"

/-- `SerialImageBuffer::into_vec` (src/serialimage.rs lines 242-282): the
inverse re-interleave.  The `.unwrap()` calls on absent channels and the final
`panic!("Invalid number of elements")` are modelled as panic outcomes. -/
def into_vec {T : Type} [Inhabited T] (b : SerialImageBuffer T) :
    PanicOr (List T) :=
  if b.width * b.height = 0 then .ok []
  else if b.data.pixel_elems = 1 then
    match b.data.luma with
    | some l => .ok l
    | none => .panics unwrapMsg
  else if b.data.pixel_elems = 2 then
    match b.data.luma, b.data.alpha with
    | some luma, some alpha =>
        .ok ((List.range (b.width * b.height)).flatMap fun i =>
          [luma.getD i default, alpha.getD i default])
    | _, _ => .panics unwrapMsg
  else if b.data.pixel_elems = 3 then
    match b.data.red, b.data.green, b.data.blue with
    | some red, some green, some blue =>
        .ok ((List.range (b.width * b.height)).flatMap fun i =>
          [red.getD i default, green.getD i default, blue.getD i default])
    | _, _, _ => .panics unwrapMsg
  else if b.data.pixel_elems = 4 then
    match b.data.red, b.data.green, b.data.blue, b.data.alpha with
    | some red, some green, some blue, some alpha =>
        .ok ((List.range (b.width * b.height)).flatMap fun i =>
          [red.getD i default, green.getD i default, blue.getD i default,
           alpha.getD i default])
    | _, _, _, _ => .panics unwrapMsg
  else .panics "Invalid number of elements"

/-- Per-type constructor `SerialImageBuffer::<u8>::new` (src/serialimage.rs
lines 451-500); the `u16` constructor (lines 622-671) is textually identical
modulo the element type, so both are embedded by this one generic
definition. -/
def new {T : Type} (meta : Option Unit) (luma red green blue alpha : Option (List T))
    (width height : Nat) : Except String (SerialImageBuffer T) :=
  if width * height = 0 then
    .error "Width and height must be greater than zero"
  else
    let colors := (if red.isSome then 1 else 0) + (if green.isSome then 1 else 0) +
      (if blue.isSome then 1 else 0)
    if colors > 0 ∧ colors ≠ 3 then
      .error "All color channels must be specified."
    else if luma.isSome ∧ colors > 0 then
      .error "Luma and color channels cannot be specified at the same time"
    else if luma.isSome ∧ (luma.getD []).length ≠ width * height then
      .error "Length of luma channel must be equal to width times height"
    else if red.isSome ∧ (red.getD []).length ≠ width * height then
      .error "Length of red channel must be equal to width times height"
    else if green.isSome ∧ (green.getD []).length ≠ width * height then
      .error "Length of green channel must be equal to width times height"
    else if blue.isSome ∧ (blue.getD []).length ≠ width * height then
      .error "Length of blue channel must be equal to width times height"
    else if alpha.isSome ∧ (alpha.getD []).length ≠ width * height then
      .error "Length of alpha channel must be equal to width times height"
    else
      let pixel_elems := colors + (if luma.isSome then 1 else 0) +
        (if alpha.isSome then 1 else 0)
      .ok { meta := meta,
            data := { luma := luma, red := red, green := green, blue := blue,
                      alpha := alpha, pixel_elems := pixel_elems },
            width := width, height := height }

/-- `SerialImageBuffer::<f32>::new` (src/serialimage.rs lines 780-818): the
float constructor takes mandatory red/green/blue and optional alpha. -/
def new_f32 (meta : Option Unit) (red green blue : List Rat)
    (alpha : Option (List Rat)) (width height : Nat) :
    Except String (SerialImageBuffer Rat) :=
  if width * height = 0 then
    .error "Width and height must be greater than zero"
  else if red.length ≠ width * height then
    .error "Length of red channel must be equal to width times height"
  else if green.length ≠ width * height then
    .error "Length of green channel must be equal to width times height"
  else if blue.length ≠ width * height then
    .error "Length of blue channel must be equal to width times height"
  else if alpha.isSome ∧ (alpha.getD []).length ≠ width * height then
    .error "Length of alpha channel must be equal to width times height"
  else
    let elems := if alpha.isSome then 4 else 3
    .ok { meta := meta,
          data := { luma := none, red := some red, green := some green,
                    blue := some blue, alpha := alpha, pixel_elems := elems },
          width := width, height := height }

/-- `SerialImageBuffer::is_luma` (pixel_elems == 1). -/
def is_luma {T : Type} (b : SerialImageBuffer T) : Bool :=
  b.data.pixel_elems = 1

/-- `SerialImageBuffer::is_rgb` (pixel_elems == 3). -/
def is_rgb {T : Type} (b : SerialImageBuffer T) : Bool :=
  b.data.pixel_elems = 3

end SerialImageBuffer

/-- The populated-channel combination of a buffer is one of the four legal
planar forms the specification allows: luma only, luma plus alpha, RGB, or
RGB plus alpha. -/
def legal_channel_combo {T : Type} (b : SerialImageBuffer T) : Prop :=
  (b.data.luma.isSome ∧ b.data.red = none ∧ b.data.green = none ∧
     b.data.blue = none ∧ b.data.alpha = none) ∨
  (b.data.luma.isSome ∧ b.data.red = none ∧ b.data.green = none ∧
     b.data.blue = none ∧ b.data.alpha.isSome) ∨
  (b.data.luma = none ∧ b.data.red.isSome ∧ b.data.green.isSome ∧
     b.data.blue.isSome ∧ b.data.alpha = none) ∨
  (b.data.luma = none ∧ b.data.red.isSome ∧ b.data.green.isSome ∧
     b.data.blue.isSome ∧ b.data.alpha.isSome)

instance {T : Type} [DecidableEq T] (b : SerialImageBuffer T) :
    Decidable (legal_channel_combo b) := by
  unfold legal_channel_combo; infer_instance

/-! ### Luma lookup tables (src/serialimage.rs lines 1957-1989)

Each table entry is `(ctr as f32 * COEF).round() as u16`.  The coefficient
literals are embedded as the exact rational values of the IEEE-754 `f32`
constants (0.2126f32 = 7133672/2^25, 0.7152f32 = 11999065/2^24,
0.0722f32 = 9690520/2^27).  `f32::round` rounds half away from zero; all
arguments are nonnegative, so it is `⌊x + 1/2⌋` here.  The float rounding of
the product `ctr * COEF` (absolute error < 2^-9) is not modelled; every
index at which a theorem below evaluates a table keeps the product more than
0.1 away from a half-integer, so the entry value is unaffected. -/

/-- Exact rational value of the `f32` literal `0.2126`. -/
def red_coef : Rat := 7133672 / 2 ^ 25

/-- Exact rational value of the `f32` literal `0.7152`. -/
def green_coef : Rat := 11999065 / 2 ^ 24

/-- Exact rational value of the `f32` literal `0.0722`. -/
def blue_coef : Rat := 9690520 / 2 ^ 27

/-- Round half away from zero (nonnegative case) followed by the saturating
`as u16` cast. -/
def round_to_u16 (q : Rat) : Nat :=
  min (⌊q + 1 / 2⌋).toNat (2 ^ 16 - 1)

/-- Entry `x` of the red luma table `R_LUT_U16` (built by `get_red_lut_16`). -/
def r_lut_u16 (x : Nat) : Nat := round_to_u16 ((x : Rat) * red_coef)

/-- Entry `x` of the green luma table `G_LUT_U16` (built by `get_green_lut_16`). -/
def g_lut_u16 (x : Nat) : Nat := round_to_u16 ((x : Rat) * green_coef)

/-- Entry `x` of the blue luma table `B_LUT_U16` (built by `get_blue_lut_16`). -/
def b_lut_u16 (x : Nat) : Nat := round_to_u16 ((x : Rat) * blue_coef)

namespace SerialImageBuffer

/-- `SerialImageBuffer::<u8>::into_luma` (src/serialimage.rs lines 503-537).
The `(*x as u16) << 8` upconversion is `* 2^8` (no overflow: u8 source).  The
per-pixel sum of the three table lookups is a `u16` addition, wrapping
modulo 2^16 under release semantics (a debug build would panic on overflow
instead).  The `else` branch is `panic!("Cannot convert image")`, and the
trailing `.unwrap()` of the `new` constructor is a panic on error. -/
def into_luma_u8 (b : SerialImageBuffer Nat) : PanicOr (SerialImageBuffer Nat) :=
  if b.is_luma then
    match b.data.luma with
    | none => .panics unwrapMsg
    | some sluma =>
      match new b.meta (some (sluma.map fun x => x * 2 ^ 8)) none none none none
          b.width b.height with
      | .ok r => .ok r
      | .error e => .panics e
  else if b.is_rgb then
    match b.data.red, b.data.green, b.data.blue with
    | some sred, some sgreen, some sblue =>
      let luma := (sred.zip (sgreen.zip sblue)).map fun p =>
        (r_lut_u16 (p.1 * 2 ^ 8) + g_lut_u16 (p.2.1 * 2 ^ 8) +
          b_lut_u16 (p.2.2 * 2 ^ 8)) % 2 ^ 16
      match new b.meta (some luma) none none none none b.width b.height with
      | .ok r => .ok r
      | .error e => .panics e
    | _, _, _ => .panics unwrapMsg
  else
    .panics "Cannot convert image"

/-- `SerialImageBuffer::<u8>::into_luma_alpha` (src/serialimage.rs lines
540-558): convert via `into_luma`, then rebuild with the (8-to-16-bit
rescaled) alpha channel; the final `.unwrap()` is a panic on error. -/
def into_luma_alpha_u8 (b : SerialImageBuffer Nat) :
    PanicOr (SerialImageBuffer Nat) :=
  match into_luma_u8 b with
  | .panics m => .panics m
  | .ok img =>
    let alpha := b.data.alpha.map (List.map fun x => x * 2 ^ 8)
    match new img.meta img.data.luma none none none alpha b.width b.height with
    | .ok r => .ok r
    | .error e => .panics e

/-- `SerialImageBuffer::<u16>::into_luma` (src/serialimage.rs lines 674-704):
same structure as the u8 version but the table is indexed by the raw 16-bit
sample and the luma branch clones the channel unchanged. -/
def into_luma_u16 (b : SerialImageBuffer Nat) : PanicOr (SerialImageBuffer Nat) :=
  if b.is_luma then
    match b.data.luma with
    | none => .panics unwrapMsg
    | some sluma =>
      match new b.meta (some sluma) none none none none b.width b.height with
      | .ok r => .ok r
      | .error e => .panics e
  else if b.is_rgb then
    match b.data.red, b.data.green, b.data.blue with
    | some sred, some sgreen, some sblue =>
      let luma := (sred.zip (sgreen.zip sblue)).map fun p =>
        (r_lut_u16 p.1 + g_lut_u16 p.2.1 + b_lut_u16 p.2.2) % 2 ^ 16
      match new b.meta (some luma) none none none none b.width b.height with
      | .ok r => .ok r
      | .error e => .panics e
    | _, _, _ => .panics unwrapMsg
  else
    .panics "Cannot convert image"

/-- `SerialImageBuffer::<u16>::into_luma_alpha` (src/serialimage.rs lines
707-720): convert via `into_luma`, then rebuild carrying the alpha channel
over unchanged. -/
def into_luma_alpha_u16 (b : SerialImageBuffer Nat) :
    PanicOr (SerialImageBuffer Nat) :=
  match into_luma_u16 b with
  | .panics m => .panics m
  | .ok img =>
    match new img.meta img.data.luma none none none b.data.alpha
        b.width b.height with
    | .ok r => .ok r
    | .error e => .panics e

end SerialImageBuffer

/-- A packed-pixel `image::ImageBuffer` as far as the claims observe it:
dimensions plus the raw interleaved sample vector (`from_raw` checks that the
vector holds exactly `width * height * channels` samples). -/
structure PackedImageBuffer (T : Type) where
  width : Nat
  height : Nat
  raw : List T
  deriving Repr, DecidableEq

/-- `ImageBuffer::from_raw` for a pixel type with `channels` samples per
pixel: succeeds iff the raw vector length matches. -/
def packed_from_raw {T : Type} (channels width height : Nat) (raw : List T) :
    Option (PackedImageBuffer T) :=
  if raw.length = channels * width * height then
    some { width := width, height := height, raw := raw }
  else none

/-- Combined outcome of a Rust `Result`-returning function that can also
panic. -/
inductive RustOutcome (α : Type) where
  | panics (msg : String)
  | err (msg : String)
  | ok (value : α)
  deriving Repr, DecidableEq

/-- `TryInto<ImageBuffer<Rgb<u8>>> for SerialImageBuffer<u8>`
(src/serialimage.rs lines 1573-1595).  After the element-count and dimension
checks the source builds the packed buffer from `self.data.luma.unwrap()` —
the luma channel, which is absent in an RGB buffer — not from the
re-interleaved `into_vec` data.  The u16 impl (lines 1621-1643) and the f32
impl (lines 1669-1691) are textually identical modulo the element type, so
this generic definition embeds all three. -/
def try_into_rgb {T : Type} (b : SerialImageBuffer T) :
    RustOutcome (PackedImageBuffer T) :=
  if b.data.pixel_elems ≠ 3 then
    .err "Image must have three elements per pixel"
  else if b.width * b.height = 0 then
    .err "Image must have non-zero dimensions"
  else
    match b.data.luma with
    | none => .panics SerialImageBuffer.unwrapMsg
    | some l =>
      match packed_from_raw 3 b.width b.height l with
      | none => .err "Failed to convert to image buffer"
      | some img => .ok img

/-! ### Exposure/binning controller (src/optimalexposure.rs) -/

/-- Exact rational value of the `f32` literal `1.6e-5` (the validation
tolerance): `8796093 / 2^39`. -/
def tol_16em5 : Rat := 8796093 / 2 ^ 39

/-- Exact rational value of the `f32` literal `0.99999` (the percentile
last-index cutoff): `2097131 / 2^21`. -/
def cutoff_99999 : Rat := 2097131 / 2 ^ 21

/-- Exact rational value of the `f64` literal `1e-5` (the out-of-range
default sample value and the division floor); `1e-5` rounds to
`0x1.4f8b588e368f1p-17 = 5902958103587057 / 2^69`. -/
def small_1em5 : Rat := 5902958103587057 / 2 ^ 69

/-- Twos-complement (release-profile) `usize` subtraction `a - b`, defined
whenever `b ≤ 2^64` (always the case below: `b` is `1` or
`pixel_exclusion + 1 ≤ 2^32 + 1`). -/
def wrap_sub_64 (a b : Nat) : Nat := (a + 2 ^ 64 - b) % 2 ^ 64

/-- The saturating `as usize` cast of a nonnegative float-valued quantity. -/
def sat_usize (z : Int) : Nat := min z.toNat (2 ^ 64 - 1)

/-- `Duration::MAX` as a nanosecond count: `u64::MAX` seconds plus
999 999 999 nanoseconds.  Every `Duration` value is at most this. -/
def duration_max_nanos : Nat := (2 ^ 64 - 1) * 10 ^ 9 + 999999999

/-- The panic message of `Duration::from_secs_f64` on overflow. -/
def from_secs_panic_msg : String :=
  "can not convert float seconds to Duration: value is either too big or NaN"

/-- The panic message of the scalar multiplication of `Duration` on overflow. -/
def duration_mul_panic_msg : String :=
  "overflow when multiplying duration by scalar"

/-- `Duration::from_secs_f64`: seconds to nanoseconds, rounded to the nearest
nanosecond; panics when the value is negative or overflows `Duration`
(the model rounds to nearest nanosecond and checks the rounded count against
`Duration::MAX`; the callers feed it an `abs`-ed value, so the negative case
never fires below). -/
def duration_from_secs (q : Rat) : PanicOr Nat :=
  let n := ⌊q * 10 ^ 9 + 1 / 2⌋
  if q < 0 ∨ (duration_max_nanos : Int) < n then .panics from_secs_panic_msg
  else .ok n.toNat

/-- `Duration::as_micros`: truncating nanoseconds-to-microseconds division. -/
def duration_as_micros (nanos : Nat) : Nat := nanos / 1000

/-- The controller configuration `OptimumExposureConfig`
(src/optimalexposure.rs lines 5-14).  Durations are nanosecond counts,
fractional tunables are the rational values of the `f32` fields. -/
structure OptimumExposureConfig where
  percentile_pix : Rat
  pixel_tgt : Rat
  pixel_uncertainty : Rat
  min_allowed_exp : Nat
  max_allowed_exp : Nat
  max_allowed_bin : Nat
  pixel_exclusion : Nat
  deriving Repr, DecidableEq

namespace OptimumExposureConfig

/-- Index of the percentile sample after the exclusion-band clamp
(src/optimalexposure.rs lines 116-124): `coord = len-1` when
`percentile_pix > 0.99999`, else `floor(percentile_pix * (len-1))`; if the
result falls below `pixel_exclusion` it is relocated to
`len - 1 - pixel_exclusion`.  All three subtractions are wrapping `usize`
arithmetic. -/
def percentile_coord (cfg : OptimumExposureConfig) (n : Nat) : Nat :=
  let coord :=
    if cfg.percentile_pix > cutoff_99999 then wrap_sub_64 n 1
    else sat_usize ⌊cfg.percentile_pix * (wrap_sub_64 n 1 : Rat)⌋
  if coord < cfg.pixel_exclusion then wrap_sub_64 (wrap_sub_64 n 1) cfg.pixel_exclusion
  else coord

/-- The sample value read at the computed percentile index
(src/optimalexposure.rs lines 125-130): the image is sorted ascending and the
lookup defaults to `1e-5` when the index is out of range. -/
def percentile_value (cfg : OptimumExposureConfig) (img : List Nat) : Rat :=
  match (List.insertionSort (· ≤ ·) img)[percentile_coord cfg img.length]? with
  | some v => (v : Rat)
  | none => small_1em5

/-- The estimated target exposure (src/optimalexposure.rs lines 136-146):
floor the percentile value at `1e-5`, then scale the current exposure by
`pixel_tgt (in absolute 16-bit units) / value`; the enclosing
`Duration::from_secs_f64` panics when the result overflows `Duration`. -/
def estimated_exposure (cfg : OptimumExposureConfig) (img : List Nat)
    (exposure : Nat) : PanicOr Nat :=
  let val := percentile_value cfg img
  let val := if val ≤ small_1em5 then small_1em5 else val
  duration_from_secs
    |cfg.pixel_tgt * 65535 * (duration_as_micros exposure : Rat) * (1 / 10 ^ 6) / val|

/-- The exposure-for-binning trade loop (src/optimalexposure.rs lines
152-155): while the target exposure is below the cap and the bin exceeds 2,
halve the bin and quadruple the exposure.  The `tgt_exp *= 4` is a
`Duration` scalar multiplication, which panics (in every build profile) when
the product exceeds `Duration::MAX`. -/
def bin_halve_loop (maxExp : Nat) (tgt bin : Nat) : PanicOr (Nat × Nat) :=
  if tgt < maxExp ∧ 2 < bin then
    if duration_max_nanos < tgt * 4 then .panics duration_mul_panic_msg
    else bin_halve_loop maxExp (tgt * 4) (bin / 2)
  else .ok (tgt, bin)
termination_by bin
decreasing_by exact Nat.div_lt_self (by omega) (by omega)

/-- The inverse trade loop (src/optimalexposure.rs lines 157-160): while the
target exposure exceeds the cap and the bin can double within the limit,
double the bin and quarter the exposure.  `Duration` division by the nonzero
scalar 4 cannot fail, so this loop is total. -/
def bin_double_loop (maxExp maxBin : Nat) (tgt bin : Nat) : Nat × Nat :=
  if maxExp < tgt ∧ bin * 2 ≤ maxBin then bin_double_loop maxExp maxBin (tgt / 4) (bin * 2)
  else (tgt, bin)
termination_by tgt
decreasing_by exact Nat.div_lt_self (by omega) (by omega)

/-- `OptimumExposureConfig::find_optimum_exposure`
(src/optimalexposure.rs lines 64-182).  The exclusion check compares against
`img.len() as u32`, a truncating cast, hence the `% 2 ^ 32`.  The outcome
distinguishes the returned `Err` values from the reachable `Duration`
overflow panics of the estimation and of the halving loop. -/
def find_optimum_exposure (cfg : OptimumExposureConfig) (img : List Nat)
    (exposure : Nat) (bin : Nat) : RustOutcome (Nat × Nat) :=
  if cfg.pixel_tgt < tol_16em5 ∨ cfg.pixel_tgt > 1 then
    .err "Target pixel value must be between 1.6e-5 and 1"
  else if cfg.pixel_uncertainty < tol_16em5 ∨ cfg.pixel_uncertainty > 1 then
    .err "Pixel uncertainty must be between 1.6e-5 and 1"
  else if cfg.percentile_pix < 0 ∨ cfg.percentile_pix > 1 then
    .err "Percentile must be between 0 and 1"
  else if cfg.min_allowed_exp ≥ cfg.max_allowed_exp then
    .err "Minimum allowed exposure must be less than maximum allowed exposure"
  else if cfg.pixel_exclusion > img.length % 2 ^ 32 then
    .err "Pixel exclusion must be less than the number of pixels"
  else
    let max_allowed_bin := if cfg.max_allowed_bin < 2 then 1 else cfg.max_allowed_bin
    let change_bin := ¬ max_allowed_bin < 2
    let pixel_tgt := cfg.pixel_tgt * 65535
    let pixel_uncertainty := cfg.pixel_uncertainty * 65535
    let val := percentile_value cfg img
    if |pixel_tgt - val| < pixel_uncertainty then
      .ok (exposure, bin)
    else
      match estimated_exposure cfg img exposure with
      | .panics m => .panics m
      | .ok target_exposure =>
        let step :=
          if change_bin then
            if target_exposure < cfg.max_allowed_exp then
              bin_halve_loop cfg.max_allowed_exp target_exposure bin
            else
              PanicOr.ok (bin_double_loop cfg.max_allowed_exp max_allowed_bin
                target_exposure bin)
          else PanicOr.ok (target_exposure, bin)
        match step with
        | .panics m => .panics m
        | .ok p =>
          let target_exposure := if p.1 > cfg.max_allowed_exp then cfg.max_allowed_exp else p.1
          let target_exposure :=
            if target_exposure < cfg.min_allowed_exp then cfg.min_allowed_exp
            else target_exposure
          let bin := if p.2 < 1 then 1 else p.2
          let bin := if bin > max_allowed_bin then max_allowed_bin else bin
          .ok (target_exposure, bin)

/-- The disjunction of the five step-1 validation failures of
`find_optimum_exposure` (the last compares the exclusion count against the
u32-truncated sample count, as the source casts `img.len() as u32`). -/
def validation_fails (cfg : OptimumExposureConfig) (img : List Nat) : Prop :=
  cfg.pixel_tgt < tol_16em5 ∨ cfg.pixel_tgt > 1 ∨
  cfg.pixel_uncertainty < tol_16em5 ∨ cfg.pixel_uncertainty > 1 ∨
  cfg.percentile_pix < 0 ∨ cfg.percentile_pix > 1 ∨
  cfg.min_allowed_exp ≥ cfg.max_allowed_exp ∨
  cfg.pixel_exclusion > img.length % 2 ^ 32

instance (cfg : OptimumExposureConfig) (img : List Nat) :
    Decidable (validation_fails cfg img) := by
  unfold validation_fails; infer_instance

end OptimumExposureConfig

/-! ### Packed `DynamicImage` boundary (src/dynamicserialimage.rs) -/

/-- The packed color-space tag `image::ColorType`.  The external enum is
`#[non_exhaustive]`; the `unsupported` constructor stands for any color
space with no planar representation (e.g. indexed or 1-bit formats), which
the source handles through its wildcard match arm. -/
inductive ColorType where
  | l8 | la8 | rgb8 | rgba8
  | l16 | la16 | rgb16 | rgba16
  | rgb32f | rgba32f
  | unsupported
  deriving Repr, DecidableEq

/-- `ColorType::channel_count` for the supported color spaces (the
`unsupported` stand-in never reaches a channel-count use in the source
paths modelled here; 0 is a placeholder). -/
def ColorType.channel_count : ColorType → Nat
  | .l8 | .l16 => 1
  | .la8 | .la16 => 2
  | .rgb8 | .rgb16 | .rgb32f => 3
  | .rgba8 | .rgba16 | .rgba32f => 4
  | .unsupported => 0

/-- The packed-pixel image `image::DynamicImage`: one variant per color
space, carrying dimensions and the interleaved raw sample vector.  Integer
samples (u8/u16) are `Nat`, float samples are `Rat`.  The `unsupported`
variant models a packed image in a color space with no planar
representation. -/
inductive DynamicImage where
  | luma8 (width height : Nat) (raw : List Nat)
  | lumaA8 (width height : Nat) (raw : List Nat)
  | rgb8 (width height : Nat) (raw : List Nat)
  | rgba8 (width height : Nat) (raw : List Nat)
  | luma16 (width height : Nat) (raw : List Nat)
  | lumaA16 (width height : Nat) (raw : List Nat)
  | rgb16 (width height : Nat) (raw : List Nat)
  | rgba16 (width height : Nat) (raw : List Nat)
  | rgb32f (width height : Nat) (raw : List Rat)
  | rgba32f (width height : Nat) (raw : List Rat)
  | unsupported (width height : Nat)
  deriving Repr, DecidableEq

/-- `DynamicImage::color`. -/
def DynamicImage.color : DynamicImage → ColorType
  | .luma8 _ _ _ => .l8
  | .lumaA8 _ _ _ => .la8
  | .rgb8 _ _ _ => .rgb8
  | .rgba8 _ _ _ => .rgba8
  | .luma16 _ _ _ => .l16
  | .lumaA16 _ _ _ => .la16
  | .rgb16 _ _ _ => .rgb16
  | .rgba16 _ _ _ => .rgba16
  | .rgb32f _ _ _ => .rgb32f
  | .rgba32f _ _ _ => .rgba32f
  | .unsupported _ _ => .unsupported

/-- `DynamicImage::width`. -/
def DynamicImage.width : DynamicImage → Nat
  | .luma8 w _ _ | .lumaA8 w _ _ | .rgb8 w _ _ | .rgba8 w _ _
  | .luma16 w _ _ | .lumaA16 w _ _ | .rgb16 w _ _ | .rgba16 w _ _
  | .rgb32f w _ _ | .rgba32f w _ _ | .unsupported w _ => w

/-- `DynamicImage::height`. -/
def DynamicImage.height : DynamicImage → Nat
  | .luma8 _ h _ | .lumaA8 _ h _ | .rgb8 _ h _ | .rgba8 _ h _
  | .luma16 _ h _ | .lumaA16 _ h _ | .rgb16 _ h _ | .rgba16 _ h _
  | .rgb32f _ h _ | .rgba32f _ h _ | .unsupported _ h => h

/-- Shared body of the de-interleaving `TryFrom<DynamicImage>` arms: build
the planar buffer from the raw vector with
`Self::from_vec_unsafe(width * height, raw, pixel_elems)`. -/
def buffer_of_raw {T : Type} [Inhabited T] (width height : Nat) (raw : List T)
    (pixel_elems : Nat) : SerialImageBuffer T :=
  let t := SerialImageBuffer.from_vec_deinterleave (width * height) raw pixel_elems
  { meta := none,
    data := { luma := t.1, red := t.2.1, green := t.2.2.1, blue := t.2.2.2.1,
              alpha := t.2.2.2.2, pixel_elems := pixel_elems },
    width := width, height := height }

/-- `TryFrom<DynamicImage> for SerialImageBuffer<u8>` (src/serialimage.rs
lines 919-970): accepts the four 8-bit variants (the Luma8 arm moves the raw
vector directly, the others de-interleave), rejects everything else. -/
def try_from_dynamic_u8 (img : DynamicImage) :
    Except String (SerialImageBuffer Nat) :=
  match img with
  | .luma8 w h raw =>
      .ok { meta := none,
            data := { luma := some raw, red := none, green := none,
                      blue := none, alpha := none,
                      pixel_elems := ColorType.l8.channel_count },
            width := w, height := h }
  | .lumaA8 w h raw => .ok (buffer_of_raw w h raw ColorType.la8.channel_count)
  | .rgb8 w h raw => .ok (buffer_of_raw w h raw ColorType.rgb8.channel_count)
  | .rgba8 w h raw => .ok (buffer_of_raw w h raw ColorType.rgba8.channel_count)
  | _ => .error "Image type not supported"

/-- `TryFrom<DynamicImage> for SerialImageBuffer<u16>` (src/serialimage.rs
lines 972-1023). -/
def try_from_dynamic_u16 (img : DynamicImage) :
    Except String (SerialImageBuffer Nat) :=
  match img with
  | .luma16 w h raw =>
      .ok { meta := none,
            data := { luma := some raw, red := none, green := none,
                      blue := none, alpha := none,
                      pixel_elems := ColorType.l16.channel_count },
            width := w, height := h }
  | .lumaA16 w h raw => .ok (buffer_of_raw w h raw ColorType.la16.channel_count)
  | .rgb16 w h raw => .ok (buffer_of_raw w h raw ColorType.rgb16.channel_count)
  | .rgba16 w h raw => .ok (buffer_of_raw w h raw ColorType.rgba16.channel_count)
  | _ => .error "Image type not supported"

/-- `TryFrom<DynamicImage> for SerialImageBuffer<f32>` (src/serialimage.rs
lines 1025-1065). -/
def try_from_dynamic_f32 (img : DynamicImage) :
    Except String (SerialImageBuffer Rat) :=
  match img with
  | .rgb32f w h raw => .ok (buffer_of_raw w h raw ColorType.rgb32f.channel_count)
  | .rgba32f w h raw => .ok (buffer_of_raw w h raw ColorType.rgba32f.channel_count)
  | _ => .error "Image type not supported"

/-- The tagged union `DynamicSerialImage` (src/dynamicserialimage.rs lines
44-51). -/
inductive DynamicSerialImage where
  | u8 (buffer : SerialImageBuffer Nat)
  | u16 (buffer : SerialImageBuffer Nat)
  | f32 (buffer : SerialImageBuffer Rat)
  deriving Repr, DecidableEq

/-- `From<DynamicImage> for DynamicSerialImage` (src/dynamicserialimage.rs
lines 336-354): dispatch on the packed color space; each supported arm
unwraps the corresponding `TryFrom` (a panic on error), and the wildcard arm
is `panic!("Unsupported image type")`. -/
def from_dynamic_image (img : DynamicImage) : PanicOr DynamicSerialImage :=
  match img.color with
  | .l8 | .rgb8 | .rgba8 | .la8 =>
    match try_from_dynamic_u8 img with
    | .ok b => .ok (.u8 b)
    | .error e => .panics e
  | .l16 | .rgb16 | .rgba16 | .la16 =>
    match try_from_dynamic_u16 img with
    | .ok b => .ok (.u16 b)
    | .error e => .panics e
  | .rgb32f | .rgba32f =>
    match try_from_dynamic_f32 img with
    | .ok b => .ok (.f32 b)
    | .error e => .panics e
  | .unsupported => .panics "Unsupported image type"

/-! ## Helper lemmas -/

/-- A `flatMap` over a mapped list composes the functions. -/
theorem flatMap_map_eq {α β γ : Type _} (g : α → β) (f : β → List γ) :
    ∀ l : List α, (l.map g).flatMap f = l.flatMap fun a => f (g a) := by
  intro l
  induction l with
  | nil => rfl
  | cons a l ih => simp [List.flatMap_cons, ih]

/-- `getD` applied to a map over `List.range` evaluates the function. -/
theorem getD_map_range {T : Type} (f : Nat → T) (n i : Nat) (hi : i < n) (d : T) :
    ((List.range n).map f).getD i d = f i := by
  simp [List.getD_eq_getElem?_getD, List.getElem?_map, List.getElem?_range hi]

/-- The first `k` positions of a list, read through `getD`. -/
theorem map_range_getD_take {T : Type} (k : Nat) (data : List T) (d : T)
    (h : k ≤ data.length) :
    (List.range k).map (fun j => data.getD j d) = data.take k := by
  apply List.ext_getElem
  · simp [Nat.min_eq_left h]
  · intro i h₁ h₂
    simp only [List.length_map, List.length_range] at h₁
    have hil : i < data.length := lt_of_lt_of_le h₁ h
    simp [List.getElem_map, List.getElem_range, List.getElem_take,
      List.getD_eq_getElem?_getD, List.getElem?_eq_getElem hil]

/-- `getD` into a dropped list shifts the index. -/
theorem getD_drop_add {T : Type} (l : List T) (i j : Nat) (d : T) :
    (l.drop i).getD j d = l.getD (i + j) d := by
  simp [List.getD_eq_getElem?_getD, List.getElem?_drop]

/-- Re-interleaving the element-wise reads of a `k`-channel interleaved vector
reproduces the vector. -/
theorem flatMap_range_interleave {T : Type} (k : Nat) :
    ∀ (n : Nat) (data : List T) (d : T), data.length = k * n →
      ((List.range n).flatMap fun i =>
        (List.range k).map fun j => data.getD (k * i + j) d) = data := by
  intro n
  induction n with
  | zero =>
    intro data d hd
    simp at hd
    simp [hd]
  | succ n ih =>
    intro data d hd
    have hkle : k ≤ data.length := by
      rw [hd, Nat.mul_succ]; omega
    rw [List.range_succ_eq_map, List.flatMap_cons, flatMap_map_eq]
    have hhead : ((List.range k).map fun j => data.getD (k * 0 + j) d) = data.take k := by
      simpa using map_range_getD_take k data d hkle
    have htail : ((List.range n).flatMap fun i =>
        (List.range k).map fun j => data.getD (k * Nat.succ i + j) d) =
        ((List.range n).flatMap fun i =>
          (List.range k).map fun j => (data.drop k).getD (k * i + j) d) := by
      apply List.flatMap_congr
      intro i _
      apply List.map_congr_left
      intro j _
      rw [getD_drop_add]
      congr 1
      rw [Nat.mul_succ]
      omega
    rw [hhead, htail, ih (data.drop k) d (by rw [List.length_drop, hd, Nat.mul_succ]; omega)]
    exact List.take_append_drop k data

/-- C1: for every valid width, height and data vector whose length is
width*height*c for a channel count c in 1..4 (nonzero area), `from_vec`
succeeds and `into_vec` on the result returns exactly the original data. -/
theorem C1_from_vec_into_vec_round_trip {T : Type} [Inhabited T]
    (width height c : Nat) (data : List T)
    (hc : c = 1 ∨ c = 2 ∨ c = 3 ∨ c = 4) (hwh : 0 < width * height)
    (hlen : data.length = width * height * c) :
    ∃ buf, SerialImageBuffer.from_vec width height data = Except.ok buf ∧
      buf.into_vec = PanicOr.ok data := by
  have hne : width * height ≠ 0 := Nat.pos_iff_ne_zero.mp hwh
  have hpe : data.length / (width * height) = c := by
    rw [hlen]; exact Nat.mul_div_cancel_left c hwh
  obtain rfl | rfl | rfl | rfl := hc
  · refine ⟨⟨none, ⟨some data, none, none, none, none, 1⟩, width, height⟩, ?_, ?_⟩
    · simp only [SerialImageBuffer.from_vec, SerialImageBuffer.from_vec_deinterleave]
      rw [hpe]
      simp [hne, hlen]
    · simp [SerialImageBuffer.into_vec, hne]
  · refine ⟨⟨none,
      ⟨some ((List.range (width * height)).map fun i => data.getD (i * 2) default),
       none, none, none,
       some ((List.range (width * height)).map fun i => data.getD (i * 2 + 1) default),
       2⟩, width, height⟩, ?_, ?_⟩
    · simp only [SerialImageBuffer.from_vec, SerialImageBuffer.from_vec_deinterleave]
      rw [hpe]
      simp [hne, hlen]
    · have key := flatMap_range_interleave 2 (width * height) data default
        (by rw [hlen]; ring)
      have hbody : ∀ i ∈ List.range (width * height),
          [((List.range (width * height)).map fun i => data.getD (i * 2) default).getD i default,
           ((List.range (width * height)).map fun i => data.getD (i * 2 + 1) default).getD i default] =
          (List.range 2).map fun j => data.getD (2 * i + j) default := by
        intro i hi
        have hi' : i < width * height := List.mem_range.mp hi
        rw [getD_map_range _ _ _ hi', getD_map_range _ _ _ hi']
        simp [List.range_succ, Nat.mul_comm]
      simp only [SerialImageBuffer.into_vec]
      rw [if_neg hne, List.flatMap_congr hbody, key]
      simp
  · refine ⟨⟨none,
      ⟨none,
       some ((List.range (width * height)).map fun i => data.getD (i * 3) default),
       some ((List.range (width * height)).map fun i => data.getD (i * 3 + 1) default),
       some ((List.range (width * height)).map fun i => data.getD (i * 3 + 2) default),
       none, 3⟩, width, height⟩, ?_, ?_⟩
    · simp only [SerialImageBuffer.from_vec, SerialImageBuffer.from_vec_deinterleave]
      rw [hpe]
      simp [hne, hlen]
    · have key := flatMap_range_interleave 3 (width * height) data default
        (by rw [hlen]; ring)
      have hbody : ∀ i ∈ List.range (width * height),
          [((List.range (width * height)).map fun i => data.getD (i * 3) default).getD i default,
           ((List.range (width * height)).map fun i => data.getD (i * 3 + 1) default).getD i default,
           ((List.range (width * height)).map fun i => data.getD (i * 3 + 2) default).getD i default] =
          (List.range 3).map fun j => data.getD (3 * i + j) default := by
        intro i hi
        have hi' : i < width * height := List.mem_range.mp hi
        rw [getD_map_range _ _ _ hi', getD_map_range _ _ _ hi', getD_map_range _ _ _ hi']
        simp [List.range_succ, Nat.mul_comm]
      simp only [SerialImageBuffer.into_vec]
      rw [if_neg hne, List.flatMap_congr hbody, key]
      simp
  · refine ⟨⟨none,
      ⟨none,
       some ((List.range (width * height)).map fun i => data.getD (i * 4) default),
       some ((List.range (width * height)).map fun i => data.getD (i * 4 + 1) default),
       some ((List.range (width * height)).map fun i => data.getD (i * 4 + 2) default),
       some ((List.range (width * height)).map fun i => data.getD (i * 4 + 3) default),
       4⟩, width, height⟩, ?_, ?_⟩
    · simp only [SerialImageBuffer.from_vec, SerialImageBuffer.from_vec_deinterleave]
      rw [hpe]
      simp [hne, hlen]
    · have key := flatMap_range_interleave 4 (width * height) data default
        (by rw [hlen]; ring)
      have hbody : ∀ i ∈ List.range (width * height),
          [((List.range (width * height)).map fun i => data.getD (i * 4) default).getD i default,
           ((List.range (width * height)).map fun i => data.getD (i * 4 + 1) default).getD i default,
           ((List.range (width * height)).map fun i => data.getD (i * 4 + 2) default).getD i default,
           ((List.range (width * height)).map fun i => data.getD (i * 4 + 3) default).getD i default] =
          (List.range 4).map fun j => data.getD (4 * i + j) default := by
        intro i hi
        have hi' : i < width * height := List.mem_range.mp hi
        rw [getD_map_range _ _ _ hi', getD_map_range _ _ _ hi',
          getD_map_range _ _ _ hi', getD_map_range _ _ _ hi']
        simp [List.range_succ, Nat.mul_comm]
      simp only [SerialImageBuffer.into_vec]
      rw [if_neg hne, List.flatMap_congr hbody, key]
      simp

/-- C1 witness: a concrete 2-by-1 three-channel round trip. -/
theorem C1_witness :
    ∃ buf, SerialImageBuffer.from_vec 2 1 [10, 20, 30, 40, 50, 60] = Except.ok buf ∧
      buf.into_vec = PanicOr.ok [10, 20, 30, 40, 50, 60] :=
  C1_from_vec_into_vec_round_trip 2 1 3 [10, 20, 30, 40, 50, 60]
    (Or.inr (Or.inr (Or.inl rfl))) (by decide) (by decide)

/-- C2: converting a validly constructed RGB buffer (pixel_elems = 3, so the
luma channel is absent) to the packed RGB image buffer does not re-interleave
via into_vec: it unwraps the absent luma channel and panics. -/
theorem C2_try_into_rgb_panics {T : Type} (b : SerialImageBuffer T)
    (h3 : b.data.pixel_elems = 3) (hl : b.data.luma = none)
    (hwh : b.width * b.height ≠ 0) :
    try_into_rgb b = RustOutcome.panics SerialImageBuffer.unwrapMsg := by
  simp [try_into_rgb, h3, hl, hwh]

/-- C2 witness: the RGB buffer built by `from_vec 1 1 [1,2,3]` makes the
packed-RGB conversion panic. -/
theorem C2_witness :
    SerialImageBuffer.from_vec 1 1 [1, 2, 3] =
      Except.ok (⟨none, ⟨none, some [1], some [2], some [3], none, 3⟩, 1, 1⟩ :
        SerialImageBuffer Nat) ∧
    try_into_rgb (⟨none, ⟨none, some [1], some [2], some [3], none, 3⟩, 1, 1⟩ :
        SerialImageBuffer Nat) = RustOutcome.panics SerialImageBuffer.unwrapMsg :=
  ⟨rfl, C2_try_into_rgb_panics _ rfl rfl (by decide)⟩

/-- C3: a validly constructed luma-plus-alpha 8-bit buffer (built by the
public constructor `new`) makes both `into_luma` and `into_luma_alpha`
panic with "Cannot convert image" instead of succeeding. -/
theorem C3_into_luma_panics_on_luma_alpha (l a : List Nat) (w h : Nat)
    (hw : w * h ≠ 0) (hl : l.length = w * h) (ha : a.length = w * h) :
    ∃ b : SerialImageBuffer Nat,
      SerialImageBuffer.new none (some l) none none none (some a) w h =
        Except.ok b ∧
      SerialImageBuffer.into_luma_u8 b = PanicOr.panics "Cannot convert image" ∧
      SerialImageBuffer.into_luma_alpha_u8 b =
        PanicOr.panics "Cannot convert image" := by
  refine ⟨⟨none, ⟨some l, none, none, none, some a, 2⟩, w, h⟩, ?_, ?_, ?_⟩
  · simp only [SerialImageBuffer.new]
    rw [if_neg hw]
    simp [hl, ha]
  · simp [SerialImageBuffer.into_luma_u8, SerialImageBuffer.is_luma,
      SerialImageBuffer.is_rgb]
  · simp [SerialImageBuffer.into_luma_alpha_u8, SerialImageBuffer.into_luma_u8,
      SerialImageBuffer.is_luma, SerialImageBuffer.is_rgb]

/-- C3 witness: the concrete 1-by-1 luma-plus-alpha buffer. -/
theorem C3_witness :
    ∃ b : SerialImageBuffer Nat,
      SerialImageBuffer.new none (some [5]) none none none (some [7]) 1 1 =
        Except.ok b ∧
      SerialImageBuffer.into_luma_u8 b = PanicOr.panics "Cannot convert image" ∧
      SerialImageBuffer.into_luma_alpha_u8 b =
        PanicOr.panics "Cannot convert image" :=
  C3_into_luma_panics_on_luma_alpha [5] [7] 1 1 (by decide) rfl rfl

/-- C8: the public constructor `new` accepts an alpha-only channel set: the
result is a buffer whose populated channels are exactly the alpha channel, /
which is none of the four legal channel combinations (its pixel_elems is
nevertheless 1, the populated-channel count). -/
theorem C8_new_accepts_alpha_only :
    ∃ b : SerialImageBuffer Nat,
      SerialImageBuffer.new none none none none none (some [0]) 1 1 = Except.ok b ∧
      ¬ legal_channel_combo b ∧ b.data.pixel_elems = 1 ∧
      b.data.luma = none ∧ b.data.alpha = some [0] :=
  ⟨⟨none, ⟨none, none, none, none, some [0], 1⟩, 1, 1⟩, rfl, by decide, rfl, rfl, rfl⟩

/-- C10: at the full-scale pixel r = g = b = 65535 the three 16-bit luma
lookup-table entries sum to 65536, which does not fit in 16 bits, so the
per-pixel u16 addition of the 16-bit into_luma path wraps to 0 (release) or
panics on overflow (debug). -/
theorem C10_lut_sum_overflows_u16 :
    r_lut_u16 65535 + g_lut_u16 65535 + b_lut_u16 65535 = 2 ^ 16 ∧
    ¬ r_lut_u16 65535 + g_lut_u16 65535 + b_lut_u16 65535 < 2 ^ 16 ∧
    (r_lut_u16 65535 + g_lut_u16 65535 + b_lut_u16 65535) % 2 ^ 16 = 0 := by
  have hr : r_lut_u16 65535 = 13933 := by
    norm_num [r_lut_u16, round_to_u16, red_coef]
    try omega
  have hg : g_lut_u16 65535 = 46871 := by
    norm_num [g_lut_u16, round_to_u16, green_coef]
    try omega
  have hb : b_lut_u16 65535 = 4732 := by
    norm_num [b_lut_u16, round_to_u16, blue_coef]
    try omega
  rw [hr, hg, hb]
  norm_num

/-- C9 (amended): constructing a DynamicSerialImage from a packed image whose
color space has no planar representation panics (an abort, not a recoverable
error); the supported 8-bit, 16-bit and float color spaces select the U8, U16
and F32 variants respectively. -/
theorem C9_from_dynamic_image_dispatch (img : DynamicImage) :
    (img.color = ColorType.unsupported →
      from_dynamic_image img = PanicOr.panics "Unsupported image type") ∧
    (img.color = ColorType.l8 ∨ img.color = ColorType.la8 ∨
     img.color = ColorType.rgb8 ∨ img.color = ColorType.rgba8 →
      ∃ b, from_dynamic_image img = PanicOr.ok (DynamicSerialImage.u8 b)) ∧
    (img.color = ColorType.l16 ∨ img.color = ColorType.la16 ∨
     img.color = ColorType.rgb16 ∨ img.color = ColorType.rgba16 →
      ∃ b, from_dynamic_image img = PanicOr.ok (DynamicSerialImage.u16 b)) ∧
    (img.color = ColorType.rgb32f ∨ img.color = ColorType.rgba32f →
      ∃ b, from_dynamic_image img = PanicOr.ok (DynamicSerialImage.f32 b)) := by
  cases img <;>
    simp [from_dynamic_image, DynamicImage.color, try_from_dynamic_u8,
      try_from_dynamic_u16, try_from_dynamic_f32]

/-- C9 counterexample: a packed image in an unsupported color space makes the
construction panic rather than surface a recoverable error. -/
theorem C9_counterexample :
    from_dynamic_image (DynamicImage.unsupported 3 2) =
      PanicOr.panics "Unsupported image type" := rfl

/-- C9 witness: an 8-bit grayscale packed image selects the U8 variant. -/
theorem C9_witness :
    ∃ b, from_dynamic_image (DynamicImage.luma8 1 1 [0]) =
      PanicOr.ok (DynamicSerialImage.u8 b) :=
  (C9_from_dynamic_image_dispatch (DynamicImage.luma8 1 1 [0])).2.1 (Or.inl rfl)


namespace OptimumExposureConfig

/-- `Duration::from_secs_f64` either yields a duration or panics with its
overflow message. -/
theorem duration_from_secs_cases (q : Rat) :
    (∃ n, duration_from_secs q = PanicOr.ok n) ∨
      duration_from_secs q = PanicOr.panics from_secs_panic_msg := by
  by_cases hc : q < 0 ∨ (duration_max_nanos : Int) < ⌊q * 10 ^ 9 + 1 / 2⌋
  · refine Or.inr ?_
    simp only [duration_from_secs]
    rw [if_pos hc]
  · have hok : duration_from_secs q = PanicOr.ok (⌊q * 10 ^ 9 + 1 / 2⌋).toNat := by
      simp only [duration_from_secs]
      rw [if_neg hc]
    exact Or.inl ⟨_, hok⟩

/-- The exposure estimate either yields a duration or panics with the
`from_secs_f64` overflow message. -/
theorem estimated_exposure_cases (cfg : OptimumExposureConfig) (img : List Nat)
    (exposure : Nat) :
    (∃ t, estimated_exposure cfg img exposure = PanicOr.ok t) ∨
      estimated_exposure cfg img exposure = PanicOr.panics from_secs_panic_msg := by
  unfold estimated_exposure
  exact duration_from_secs_cases _

/-- The halving loop either yields a pair or panics with the duration
multiplication overflow message. -/
theorem bin_halve_loop_cases (m : Nat) :
    ∀ bin tgt, (∃ p, bin_halve_loop m tgt bin = PanicOr.ok p) ∨
      bin_halve_loop m tgt bin = PanicOr.panics duration_mul_panic_msg := by
  intro bin
  induction bin using Nat.strong_induction_on with
  | _ bin ih =>
    intro tgt
    rw [bin_halve_loop.eq_def]
    by_cases hc : tgt < m ∧ 2 < bin
    · rw [if_pos hc]
      by_cases ho : duration_max_nanos < tgt * 4
      · rw [if_pos ho]
        exact Or.inr rfl
      · rw [if_neg ho]
        exact ih (bin / 2) (Nat.div_lt_self (by omega) (by omega)) (tgt * 4)
    · rw [if_neg hc]
      exact Or.inl ⟨_, rfl⟩

/-- After a passed validation, `find_optimum_exposure` reaches an `Ok`
return unless one of the two `Duration` overflow panics fires. -/
theorem find_outcomes_of_valid (cfg : OptimumExposureConfig) (img : List Nat)
    (exposure bin : Nat) (h : ¬ validation_fails cfg img) :
    (∃ p, find_optimum_exposure cfg img exposure bin = RustOutcome.ok p) ∨
    find_optimum_exposure cfg img exposure bin =
      RustOutcome.panics from_secs_panic_msg ∨
    find_optimum_exposure cfg img exposure bin =
      RustOutcome.panics duration_mul_panic_msg := by
  unfold validation_fails at h
  push_neg at h
  obtain ⟨h1, h2, h3, h4, h5, h6, h7, h8⟩ := h
  simp only [find_optimum_exposure]
  rw [if_neg (not_or.mpr ⟨not_lt.mpr h1, not_lt.mpr h2⟩),
    if_neg (not_or.mpr ⟨not_lt.mpr h3, not_lt.mpr h4⟩),
    if_neg (not_or.mpr ⟨not_lt.mpr h5, not_lt.mpr h6⟩),
    if_neg (not_le.mpr h7), if_neg (not_lt.mpr h8)]
  split
  · exact Or.inl ⟨_, rfl⟩
  · rcases estimated_exposure_cases cfg img exposure with ⟨t, ht⟩ | ht
    · simp only [ht]
      by_cases hcb : ¬ (if cfg.max_allowed_bin < 2 then 1 else cfg.max_allowed_bin) < 2
      · rw [if_pos hcb]
        by_cases hlt : t < cfg.max_allowed_exp
        · rw [if_pos hlt]
          rcases bin_halve_loop_cases cfg.max_allowed_exp bin t with ⟨p, hp⟩ | hp
          · simp only [hp]
            exact Or.inl ⟨_, rfl⟩
          · simp only [hp]
            exact Or.inr (Or.inr trivial)
        · rw [if_neg hlt]
          exact Or.inl ⟨_, rfl⟩
      · rw [if_neg hcb]
        exact Or.inl ⟨_, rfl⟩
    · simp only [ht]
      exact Or.inr (Or.inl trivial)

/-- A failed validation makes `find_optimum_exposure` return an error. -/
theorem find_err_of_invalid (cfg : OptimumExposureConfig) (img : List Nat)
    (exposure bin : Nat) (hv : validation_fails cfg img) :
    ∃ e, find_optimum_exposure cfg img exposure bin = RustOutcome.err e := by
  simp only [find_optimum_exposure]
  by_cases h1 : cfg.pixel_tgt < tol_16em5 ∨ cfg.pixel_tgt > 1
  · rw [if_pos h1]; exact ⟨_, rfl⟩
  rw [if_neg h1]
  by_cases h2 : cfg.pixel_uncertainty < tol_16em5 ∨ cfg.pixel_uncertainty > 1
  · rw [if_pos h2]; exact ⟨_, rfl⟩
  rw [if_neg h2]
  by_cases h3 : cfg.percentile_pix < 0 ∨ cfg.percentile_pix > 1
  · rw [if_pos h3]; exact ⟨_, rfl⟩
  rw [if_neg h3]
  by_cases h4 : cfg.min_allowed_exp ≥ cfg.max_allowed_exp
  · rw [if_pos h4]; exact ⟨_, rfl⟩
  rw [if_neg h4]
  by_cases h5 : cfg.pixel_exclusion > img.length % 2 ^ 32
  · rw [if_pos h5]; exact ⟨_, rfl⟩
  exfalso
  unfold validation_fails at hv
  simp only [not_or] at h1 h2 h3
  tauto

end OptimumExposureConfig

/-- C4 (amended): for every configuration and input that passes the step-1
validation (including an empty sample vector, and pixel_exclusion equal to
the truncated sample count), `find_optimum_exposure` never returns an error:
the index computation, excluded-band clamping and sample lookup are total
under the wrapping release-profile index arithmetic, and the only remaining
failure modes are the two `Duration` overflow panics (the
`from_secs_f64` conversion of the estimate and the times-4 multiplication of
the halving loop). -/
theorem C4_after_validation_ok_or_duration_panic (cfg : OptimumExposureConfig)
    (img : List Nat) (exposure bin : Nat)
    (h : ¬ OptimumExposureConfig.validation_fails cfg img) :
    (∃ p, cfg.find_optimum_exposure img exposure bin = RustOutcome.ok p) ∨
    cfg.find_optimum_exposure img exposure bin =
      RustOutcome.panics from_secs_panic_msg ∨
    cfg.find_optimum_exposure img exposure bin =
      RustOutcome.panics duration_mul_panic_msg :=
  OptimumExposureConfig.find_outcomes_of_valid cfg img exposure bin h

/-- The percentile sample of the C4 counterexample input. -/
theorem percentile_value_overflow_input : OptimumExposureConfig.percentile_value
    ⟨1, 1, 1 / 10, 1000, 10 ^ 12, 1, 0⟩ [1] = 1 := by
  have hs : List.insertionSort (· ≤ ·) [1] = [1] := by decide
  have hgt : (1 : Rat) > cutoff_99999 := by norm_num [cutoff_99999]
  have hc : OptimumExposureConfig.percentile_coord
      ⟨1, 1, 1 / 10, 1000, 10 ^ 12, 1, 0⟩ (List.length [1]) = 0 := by
    simp [OptimumExposureConfig.percentile_coord, hgt, wrap_sub_64]
  unfold OptimumExposureConfig.percentile_value
  rw [hc, hs]
  rfl

/-- The exposure estimate of the C4 counterexample input overflows Duration:
65535 times 10^18 seconds is far beyond u64::MAX seconds, so
`from_secs_f64` panics. -/
theorem estimated_exposure_overflow_input :
    OptimumExposureConfig.estimated_exposure ⟨1, 1, 1 / 10, 1000, 10 ^ 12, 1, 0⟩
      [1] (10 ^ 27) = PanicOr.panics from_secs_panic_msg := by
  unfold OptimumExposureConfig.estimated_exposure
  rw [percentile_value_overflow_input]
  norm_num [small_1em5, duration_from_secs, duration_max_nanos,
    duration_as_micros, abs_of_nonneg]

/-- C4 counterexample: a validated input (pixel_tgt 1, a single dim sample
and a legal but astronomically long exposure of 10^27 ns) drives
`find_optimum_exposure` into the `Duration::from_secs_f64` overflow panic
after validation, refuting the claim that no step after validation can fail
or panic. -/
theorem C4_counterexample :
    (¬ OptimumExposureConfig.validation_fails
      ⟨1, 1, 1 / 10, 1000, 10 ^ 12, 1, 0⟩ [1]) ∧
    OptimumExposureConfig.find_optimum_exposure
      ⟨1, 1, 1 / 10, 1000, 10 ^ 12, 1, 0⟩ [1] (10 ^ 27) 1 =
      RustOutcome.panics from_secs_panic_msg := by
  constructor
  · norm_num [OptimumExposureConfig.validation_fails, tol_16em5]
  · have hdead : ¬(|(⟨1, 1, 1 / 10, 1000, 10 ^ 12, 1, 0⟩ :
        OptimumExposureConfig).pixel_tgt * 65535 -
        OptimumExposureConfig.percentile_value
          ⟨1, 1, 1 / 10, 1000, 10 ^ 12, 1, 0⟩ [1]| <
        (⟨1, 1, 1 / 10, 1000, 10 ^ 12, 1, 0⟩ :
          OptimumExposureConfig).pixel_uncertainty * 65535) := by
      rw [percentile_value_overflow_input]
      norm_num [abs_of_nonneg]
    simp only [OptimumExposureConfig.find_optimum_exposure]
    rw [if_neg (by norm_num [tol_16em5] : ¬((1 : Rat) < tol_16em5 ∨ (1 : Rat) > 1)),
      if_neg (by norm_num [tol_16em5] :
        ¬((1 : Rat) / 10 < tol_16em5 ∨ (1 : Rat) / 10 > 1)),
      if_neg (by norm_num : ¬((1 : Rat) < 0 ∨ (1 : Rat) > 1)),
      if_neg (by norm_num : ¬((1000 : Nat) ≥ 10 ^ 12)),
      if_neg (by norm_num : ¬((0 : Nat) > List.length [1] % 2 ^ 32)),
      if_neg hdead, estimated_exposure_overflow_input]

/-- C4 witness: the empty sample vector passes validation and reaches an
outcome with no error. -/
theorem C4_witness :
    (¬ OptimumExposureConfig.validation_fails
      ⟨1, 1 / 2, 1 / 10, 1000, 10 ^ 12, 1, 0⟩ []) ∧
    ((∃ p, OptimumExposureConfig.find_optimum_exposure
        ⟨1, 1 / 2, 1 / 10, 1000, 10 ^ 12, 1, 0⟩ [] 100 1 = RustOutcome.ok p) ∨
     OptimumExposureConfig.find_optimum_exposure
        ⟨1, 1 / 2, 1 / 10, 1000, 10 ^ 12, 1, 0⟩ [] 100 1 =
          RustOutcome.panics from_secs_panic_msg ∨
     OptimumExposureConfig.find_optimum_exposure
        ⟨1, 1 / 2, 1 / 10, 1000, 10 ^ 12, 1, 0⟩ [] 100 1 =
          RustOutcome.panics duration_mul_panic_msg) :=
  ⟨by norm_num [OptimumExposureConfig.validation_fails, tol_16em5],
   C4_after_validation_ok_or_duration_panic ⟨1, 1 / 2, 1 / 10, 1000, 10 ^ 12, 1, 0⟩
     [] 100 1
     (by norm_num [OptimumExposureConfig.validation_fails, tol_16em5])⟩

/-- C5 (amended): `find_optimum_exposure` returns a validation error exactly
when one of the five documented range checks fails — the tolerance constant
being the f32 value of 1.6e-5 (so pixel_tgt = 0 and pixel_tgt = 1.0000001
both fail), and the exclusion bound being the u32-truncated sample count
`img.len() as u32`, which equals the sample count for vectors shorter than
2^32; moreover an accepted percentile_pix = 1 reads the maximum (last
sorted) sample whenever the exclusion band leaves it in range. -/
theorem C5_validation_iff (cfg : OptimumExposureConfig) (img : List Nat)
    (exposure bin : Nat) :
    ((∃ e, cfg.find_optimum_exposure img exposure bin = RustOutcome.err e) ↔
      OptimumExposureConfig.validation_fails cfg img) ∧
    (cfg.percentile_pix = 1 → cfg.pixel_exclusion < img.length →
      img.length < 2 ^ 64 →
      ∃ m : Nat, OptimumExposureConfig.percentile_value cfg img = (m : Rat) ∧
        m ∈ img ∧ ∀ x ∈ img, x ≤ m) := by
  constructor
  · constructor
    · rintro ⟨e, he⟩
      by_contra hv
      rcases OptimumExposureConfig.find_outcomes_of_valid cfg img exposure bin hv with
        ⟨p, hp⟩ | hp | hp <;> rw [hp] at he <;> cases he
    · intro hv
      exact OptimumExposureConfig.find_err_of_invalid cfg img exposure bin hv
  · intro hp hex hlen64
    have hn : 0 < img.length := Nat.lt_of_le_of_lt (Nat.zero_le _) hex
    have hgt : cfg.percentile_pix > cutoff_99999 := by
      rw [hp]; norm_num [cutoff_99999]
    have hw1 : wrap_sub_64 img.length 1 = img.length - 1 := by
      unfold wrap_sub_64; omega
    have hcoord : OptimumExposureConfig.percentile_coord cfg img.length =
        img.length - 1 := by
      unfold OptimumExposureConfig.percentile_coord
      rw [if_pos hgt, hw1, if_neg (by omega)]
    have hslen : (List.insertionSort (· ≤ ·) img).length = img.length :=
      List.length_insertionSort (r := (· ≤ ·)) img
    have hidx : img.length - 1 < (List.insertionSort (· ≤ ·) img).length := by
      omega
    refine ⟨(List.insertionSort (· ≤ ·) img)[img.length - 1], ?_, ?_, ?_⟩
    · unfold OptimumExposureConfig.percentile_value
      rw [hcoord, List.getElem?_eq_getElem hidx]
    · exact (List.perm_insertionSort _ img).subset (List.getElem_mem hidx)
    · intro x hx
      have hxs : x ∈ List.insertionSort (· ≤ ·) img :=
        ((List.perm_insertionSort _ img).mem_iff).mpr hx
      obtain ⟨i, hi, rfl⟩ := List.getElem_of_mem hxs
      have hsorted : (List.insertionSort (· ≤ ·) img).Sorted (· ≤ ·) :=
        List.sorted_insertionSort _ img
      rcases Nat.lt_or_ge i (img.length - 1) with hlt | hge
      · exact (List.pairwise_iff_getElem.mp hsorted) i (img.length - 1) hi hidx hlt
      · have : i = img.length - 1 := by omega
        subst this
        exact le_rfl

/-- Any sample vector whose length truncates to 0 as a u32 (e.g. length
exactly 2^32) trips the exclusion validation even for pixel_exclusion 1. -/
theorem find_rejects_wrapped_length (img : List Nat)
    (hlen : img.length % 2 ^ 32 = 0) :
    OptimumExposureConfig.find_optimum_exposure
      ⟨1, 1 / 2, 1 / 10, 1000, 10 ^ 12, 1, 1⟩ img 100 1 =
      RustOutcome.err "Pixel exclusion must be less than the number of pixels" := by
  simp only [OptimumExposureConfig.find_optimum_exposure]
  rw [if_neg (by norm_num [tol_16em5] :
      ¬((1 : Rat) / 2 < tol_16em5 ∨ (1 : Rat) / 2 > 1)),
    if_neg (by norm_num [tol_16em5] :
      ¬((1 : Rat) / 10 < tol_16em5 ∨ (1 : Rat) / 10 > 1)),
    if_neg (by norm_num : ¬((1 : Rat) < 0 ∨ (1 : Rat) > 1)),
    if_neg (by norm_num : ¬((1000 : Nat) ≥ 10 ^ 12)),
    if_pos (by rw [hlen]; norm_num : (1 : Nat) > img.length % 2 ^ 32)]

/-- C5 counterexample: a sample vector of length 2^32 with pixel_exclusion 1
is rejected by the validation although the exclusion does not exceed the
number of samples — the check compares against `img.len() as u32`, which
truncates 2^32 to 0. -/
theorem C5_counterexample :
    (⟨1, 1 / 2, 1 / 10, 1000, 10 ^ 12, 1, 1⟩ :
      OptimumExposureConfig).pixel_exclusion ≤
        (List.replicate (2 ^ 32) (0 : Nat)).length ∧
    OptimumExposureConfig.find_optimum_exposure
      ⟨1, 1 / 2, 1 / 10, 1000, 10 ^ 12, 1, 1⟩ (List.replicate (2 ^ 32) 0) 100 1 =
      RustOutcome.err "Pixel exclusion must be less than the number of pixels" :=
  ⟨by rw [List.length_replicate]; norm_num,
   find_rejects_wrapped_length (List.replicate (2 ^ 32) 0)
     (by rw [List.length_replicate]; norm_num)⟩

/-- C5 witness: a concrete accepted configuration with percentile 1 is not an
error and reads the maximum sample. -/
theorem C5_witness :
    (¬ ∃ e, OptimumExposureConfig.find_optimum_exposure
        ⟨1, 1 / 2, 1 / 10, 1000, 10 ^ 12, 1, 0⟩ [3, 7] 5000 1 = RustOutcome.err e) ∧
    (∃ m : Nat, OptimumExposureConfig.percentile_value
        ⟨1, 1 / 2, 1 / 10, 1000, 10 ^ 12, 1, 0⟩ [3, 7] = (m : Rat) ∧
      m ∈ [3, 7] ∧ ∀ x ∈ [3, 7], x ≤ m) :=
  ⟨fun he =>
    absurd ((C5_validation_iff ⟨1, 1 / 2, 1 / 10, 1000, 10 ^ 12, 1, 0⟩
        [3, 7] 5000 1).1.mp he)
      (by norm_num [OptimumExposureConfig.validation_fails, tol_16em5]),
   (C5_validation_iff ⟨1, 1 / 2, 1 / 10, 1000, 10 ^ 12, 1, 0⟩ [3, 7] 5000 1).2
     rfl (by norm_num) (by norm_num)⟩

/-- C6: for every configuration and input passing validation, if the sample
value read at the computed percentile index is within the scaled uncertainty
of the scaled target, `find_optimum_exposure` returns the input exposure and
bin unchanged. -/
theorem C6_dead_band (cfg : OptimumExposureConfig) (img : List Nat)
    (exposure bin : Nat)
    (h : ¬ OptimumExposureConfig.validation_fails cfg img)
    (hdead : |cfg.pixel_tgt * 65535 - OptimumExposureConfig.percentile_value cfg img| <
      cfg.pixel_uncertainty * 65535) :
    cfg.find_optimum_exposure img exposure bin = RustOutcome.ok (exposure, bin) := by
  unfold OptimumExposureConfig.validation_fails at h
  push_neg at h
  obtain ⟨h1, h2, h3, h4, h5, h6, h7, h8⟩ := h
  simp only [OptimumExposureConfig.find_optimum_exposure]
  rw [if_neg (not_or.mpr ⟨not_lt.mpr h1, not_lt.mpr h2⟩),
    if_neg (not_or.mpr ⟨not_lt.mpr h3, not_lt.mpr h4⟩),
    if_neg (not_or.mpr ⟨not_lt.mpr h5, not_lt.mpr h6⟩),
    if_neg (not_le.mpr h7), if_neg (not_lt.mpr h8), if_pos hdead]

/-- The percentile sample of the C6 witness input. -/
theorem percentile_value_deadband_input : OptimumExposureConfig.percentile_value
    ⟨1, 1 / 2, 1 / 10, 1000, 10 ^ 12, 1, 0⟩ [32767] = 32767 := by
  have hs : List.insertionSort (· ≤ ·) [32767] = [32767] := by decide
  have hgt : (1 : Rat) > cutoff_99999 := by norm_num [cutoff_99999]
  have hc : OptimumExposureConfig.percentile_coord
      ⟨1, 1 / 2, 1 / 10, 1000, 10 ^ 12, 1, 0⟩ (List.length [32767]) = 0 := by
    simp [OptimumExposureConfig.percentile_coord, hgt, wrap_sub_64]
  unfold OptimumExposureConfig.percentile_value
  rw [hc, hs]
  rfl

/-- C6 witness: a sample at the target keeps exposure and bin unchanged. -/
theorem C6_witness :
    OptimumExposureConfig.find_optimum_exposure
      ⟨1, 1 / 2, 1 / 10, 1000, 10 ^ 12, 1, 0⟩ [32767] 5000 1 =
      RustOutcome.ok (5000, 1) :=
  C6_dead_band _ _ 5000 1
    (by norm_num [OptimumExposureConfig.validation_fails, tol_16em5])
    (by rw [percentile_value_deadband_input]; norm_num [abs_of_nonneg])

/-- The percentile sample of the C7 inputs. -/
theorem percentile_value_binning_input : OptimumExposureConfig.percentile_value
    ⟨1, 1 / 2, 1 / 10, 1000, 10 ^ 12, 4, 0⟩ [100, 6000] = 6000 := by
  have hs : List.insertionSort (· ≤ ·) [100, 6000] = [100, 6000] := by decide
  have hgt : (1 : Rat) > cutoff_99999 := by norm_num [cutoff_99999]
  have hc : OptimumExposureConfig.percentile_coord
      ⟨1, 1 / 2, 1 / 10, 1000, 10 ^ 12, 4, 0⟩ (List.length [100, 6000]) = 1 := by
    simp [OptimumExposureConfig.percentile_coord, hgt, wrap_sub_64]
  unfold OptimumExposureConfig.percentile_value
  rw [hc, hs]
  rfl

/-- The estimated target exposure of the C7 inputs: 100 ms scaled by
32767.5 / 6000 is 546.125 ms, which fits in a Duration. -/
theorem estimated_exposure_binning_input : OptimumExposureConfig.estimated_exposure
    ⟨1, 1 / 2, 1 / 10, 1000, 10 ^ 12, 4, 0⟩ [100, 6000] (10 ^ 8) =
      PanicOr.ok 546125000 := by
  unfold OptimumExposureConfig.estimated_exposure
  rw [percentile_value_binning_input]
  norm_num [small_1em5, duration_from_secs, duration_max_nanos,
    duration_as_micros, abs_of_nonneg]
  try omega

/-- With an input bin of 2 the halving loop does nothing (its guard requires
bin > 2), so a below-cap estimate is returned with the bin unchanged. -/
theorem find_keeps_bin2 (cfg : OptimumExposureConfig) (img : List Nat)
    (exposure est : Nat)
    (h : ¬ OptimumExposureConfig.validation_fails cfg img)
    (hbin4 : cfg.max_allowed_bin = 4)
    (hdead : ¬(|cfg.pixel_tgt * 65535 - OptimumExposureConfig.percentile_value cfg img| <
      cfg.pixel_uncertainty * 65535))
    (hest : OptimumExposureConfig.estimated_exposure cfg img exposure = PanicOr.ok est)
    (hlt : est < cfg.max_allowed_exp)
    (hmin : cfg.min_allowed_exp ≤ est) :
    cfg.find_optimum_exposure img exposure 2 = RustOutcome.ok (est, 2) := by
  unfold OptimumExposureConfig.validation_fails at h
  push_neg at h
  obtain ⟨h1, h2, h3, h4, h5, h6, h7, h8⟩ := h
  have hloop : OptimumExposureConfig.bin_halve_loop cfg.max_allowed_exp est 2 =
      PanicOr.ok (est, 2) := by
    rw [OptimumExposureConfig.bin_halve_loop.eq_def]
    exact if_neg (fun hc => absurd hc.2 (by omega))
  simp only [OptimumExposureConfig.find_optimum_exposure]
  rw [if_neg (not_or.mpr ⟨not_lt.mpr h1, not_lt.mpr h2⟩),
    if_neg (not_or.mpr ⟨not_lt.mpr h3, not_lt.mpr h4⟩),
    if_neg (not_or.mpr ⟨not_lt.mpr h5, not_lt.mpr h6⟩),
    if_neg (not_le.mpr h7), if_neg (not_lt.mpr h8), if_neg hdead, hbin4]
  simp only [hest]
  norm_num [hloop, hlt, Nat.not_lt.mpr hmin, Nat.not_lt.mpr (le_of_lt hlt)]

/-- C7 counterexample: with max_allowed_bin = 4, an input outside the dead
band with bin 2 whose estimated exposure is below one quarter of the cap is
returned with bin 2 unchanged — the binning is not halved, because the
halving loop requires bin > 2. -/
theorem C7_counterexample :
    (¬ OptimumExposureConfig.validation_fails
      ⟨1, 1 / 2, 1 / 10, 1000, 10 ^ 12, 4, 0⟩ [100, 6000]) ∧
    ¬(|(⟨1, 1 / 2, 1 / 10, 1000, 10 ^ 12, 4, 0⟩ :
        OptimumExposureConfig).pixel_tgt * 65535 -
        OptimumExposureConfig.percentile_value
          ⟨1, 1 / 2, 1 / 10, 1000, 10 ^ 12, 4, 0⟩ [100, 6000]| <
      (⟨1, 1 / 2, 1 / 10, 1000, 10 ^ 12, 4, 0⟩ :
        OptimumExposureConfig).pixel_uncertainty * 65535) ∧
    OptimumExposureConfig.estimated_exposure
      ⟨1, 1 / 2, 1 / 10, 1000, 10 ^ 12, 4, 0⟩ [100, 6000] (10 ^ 8) =
      PanicOr.ok 546125000 ∧
    546125000 * 4 < (⟨1, 1 / 2, 1 / 10, 1000, 10 ^ 12, 4, 0⟩ :
      OptimumExposureConfig).max_allowed_exp ∧
    OptimumExposureConfig.find_optimum_exposure
      ⟨1, 1 / 2, 1 / 10, 1000, 10 ^ 12, 4, 0⟩ [100, 6000] (10 ^ 8) 2 =
      RustOutcome.ok (546125000, 2) := by
  have hdead : ¬(|(⟨1, 1 / 2, 1 / 10, 1000, 10 ^ 12, 4, 0⟩ :
      OptimumExposureConfig).pixel_tgt * 65535 -
      OptimumExposureConfig.percentile_value
        ⟨1, 1 / 2, 1 / 10, 1000, 10 ^ 12, 4, 0⟩ [100, 6000]| <
      (⟨1, 1 / 2, 1 / 10, 1000, 10 ^ 12, 4, 0⟩ :
        OptimumExposureConfig).pixel_uncertainty * 65535) := by
    rw [percentile_value_binning_input]
    norm_num [abs_of_nonneg]
  refine ⟨?_, hdead, estimated_exposure_binning_input, by norm_num, ?_⟩
  · norm_num [OptimumExposureConfig.validation_fails, tol_16em5]
  · exact find_keeps_bin2 ⟨1, 1 / 2, 1 / 10, 1000, 10 ^ 12, 4, 0⟩ [100, 6000]
      (10 ^ 8) 546125000
      (by norm_num [OptimumExposureConfig.validation_fails, tol_16em5]) rfl hdead
      estimated_exposure_binning_input (by norm_num) (by norm_num)

/-- C7 (amended): with max_allowed_bin = 4 and an input bin of 4 (the halving
loop demands bin > 2), an out-of-dead-band input whose estimated exposure is
below one quarter of the cap has its binning halved once (4 to 2) and its
exposure scaled by 4, provided the scaled exposure stays above the minimum
(the `max_allowed_exp ≤ Duration::MAX` hypothesis records the bound the
`Duration` type itself imposes on the configured cap). -/
theorem C7_bin4_halves_once (cfg : OptimumExposureConfig) (img : List Nat)
    (exposure est : Nat)
    (h : ¬ OptimumExposureConfig.validation_fails cfg img)
    (hbin4 : cfg.max_allowed_bin = 4)
    (hdead : ¬(|cfg.pixel_tgt * 65535 - OptimumExposureConfig.percentile_value cfg img| <
      cfg.pixel_uncertainty * 65535))
    (hest : OptimumExposureConfig.estimated_exposure cfg img exposure = PanicOr.ok est)
    (hmax : cfg.max_allowed_exp ≤ duration_max_nanos)
    (hq : est * 4 < cfg.max_allowed_exp)
    (hmin : cfg.min_allowed_exp ≤ est * 4) :
    cfg.find_optimum_exposure img exposure 4 = RustOutcome.ok (est * 4, 2) := by
  unfold OptimumExposureConfig.validation_fails at h
  push_neg at h
  obtain ⟨h1, h2, h3, h4, h5, h6, h7, h8⟩ := h
  have hest_lt : est < cfg.max_allowed_exp :=
    lt_of_le_of_lt (Nat.le_mul_of_pos_right _ (by omega)) hq
  have hloop : OptimumExposureConfig.bin_halve_loop cfg.max_allowed_exp est 4 =
      PanicOr.ok (est * 4, 2) := by
    rw [OptimumExposureConfig.bin_halve_loop.eq_def]
    rw [if_pos ⟨hest_lt, by omega⟩, if_neg (by omega : ¬ duration_max_nanos < est * 4)]
    norm_num
    rw [OptimumExposureConfig.bin_halve_loop.eq_def]
    exact if_neg (fun hc => absurd hc.2 (by omega))
  simp only [OptimumExposureConfig.find_optimum_exposure]
  rw [if_neg (not_or.mpr ⟨not_lt.mpr h1, not_lt.mpr h2⟩),
    if_neg (not_or.mpr ⟨not_lt.mpr h3, not_lt.mpr h4⟩),
    if_neg (not_or.mpr ⟨not_lt.mpr h5, not_lt.mpr h6⟩),
    if_neg (not_le.mpr h7), if_neg (not_lt.mpr h8), if_neg hdead, hbin4]
  simp only [hest]
  norm_num [hloop, hest_lt, Nat.not_lt.mpr (le_of_lt hq), Nat.not_lt.mpr hmin,
    Nat.not_lt.mpr (le_of_lt hest_lt)]

/-- C7 witness: the counterexample input with bin 4 instead halves the bin to
2 and quadruples the 546.125 ms estimate. -/
theorem C7_witness :
    OptimumExposureConfig.find_optimum_exposure
      ⟨1, 1 / 2, 1 / 10, 1000, 10 ^ 12, 4, 0⟩ [100, 6000] (10 ^ 8) 4 =
      RustOutcome.ok (2184500000, 2) := by
  have h := C7_bin4_halves_once ⟨1, 1 / 2, 1 / 10, 1000, 10 ^ 12, 4, 0⟩ [100, 6000]
    (10 ^ 8) 546125000
    (by norm_num [OptimumExposureConfig.validation_fails, tol_16em5]) rfl
    (by rw [percentile_value_binning_input]; norm_num [abs_of_nonneg])
    estimated_exposure_binning_input
    (by norm_num [duration_max_nanos]) (by norm_num) (by norm_num)
  rw [h]
